import Mathlib

/-!
Verification of the confidence-scoring and queue-routing pipeline of the
email-task-extractor repository (src/task_extractor.py), shallowly embedded
in Lean 4.  Numeric values (Python floats) are modelled as rationals; all
values appearing in the program (0.15, 0.20, 0.10, 0.7, 0.5 and their sums)
are exactly representable, so the embedding is faithful on every comparison
the code performs.

Dictionaries are modelled as structures with `Option` fields for the keys
the code reads with `.get`.
-/

namespace TaskExtractor

/-- A raw task record as produced by the extraction collaborator and consumed
by `ConfidenceCalculator.calculate_final_confidence`.  Fields mirror the keys
read by the Python code; `Option` models an absent or null key. -/
structure RawTask where
  task_description : Option String
  assignee : Option String
  deadline : Option String
  priority : Option String
  confidence_score : Option ℚ
  reasoning : Option String
deriving DecidableEq, Repr

/-- Python truthiness test `not task.get('deadline')` for a string-or-null
field: the key is falsy when absent, null, or the empty string. -/
def isFalsyOptStr : Option String → Bool
  | none => true
  | some s => s == ""

/-- The fixed hedge-word list `vague_words` (task_extractor.py line 147). -/
def vague_words : List String := ["maybe", "might", "possibly", "consider", "think about"]

/-- Substring occurrence on character lists: Python's `word in description`. -/
def listContainsInfixOf (pat : List Char) : List Char → Bool
  | [] => pat.isEmpty
  | c :: cs => pat.isPrefixOf (c :: cs) || listContainsInfixOf pat cs

/-- Python `pat in s` for strings (substring containment). -/
def strContainsSubstr (s pat : String) : Bool :=
  listContainsInfixOf pat.toList s.toList

/-- Python `str.lower()`, modelled character-wise (the hedge words the code
compares against are all ASCII, where this agrees with Python). -/
def strToLower (s : String) : String := ⟨s.data.map Char.toLower⟩

/-- Lines 146-148: `any(word in description for word in vague_words)` where
`description = task.get('task_description', '').lower()`. -/
def hasVagueLanguage (task : RawTask) : Bool :=
  let description := strToLower (task.task_description.getD "")
  vague_words.any (fun word => strContainsSubstr description word)

/-- Result dictionary of `calculate_final_confidence` (lines 154-160). -/
structure ConfidenceMetrics where
  llm_confidence : ℚ
  rule_penalties : ℚ
  final_confidence : ℚ
  adjustments : List String
  needs_review : Bool
deriving DecidableEq, Repr

/-- Penalty rule 1 (lines 137-139): missing deadline. -/
def deadlineRule (task : RawTask) : ℚ × List String :=
  if isFalsyOptStr task.deadline then (15/100, ["No deadline specified (-0.15)"])
  else (0, [])

/-- Penalty rule 2 (lines 141-143): assignee equals the sentinel string. -/
def assigneeRule (task : RawTask) : ℚ × List String :=
  if task.assignee = some "unspecified" then (20/100, ["Assignee not specified (-0.20)"])
  else (0, [])

/-- Penalty rule 3 (lines 145-150): vague language in the description. -/
def vagueRule (task : RawTask) : ℚ × List String :=
  if hasVagueLanguage task then (10/100, ["Vague language detected (-0.10)"])
  else (0, [])

/-- Model of `ConfidenceCalculator.calculate_final_confidence` (lines 122-160).
The three penalty rules accumulate `penalties` and `adjustments` in order;
the final confidence is `max(0.0, min(1.0, llm_confidence - penalties))`. -/
def calculate_final_confidence (task : RawTask) : ConfidenceMetrics :=
  let llm_confidence := task.confidence_score.getD 0
  let penalties := (deadlineRule task).1 + (assigneeRule task).1 + (vagueRule task).1
  let adjustments := (deadlineRule task).2 ++ (assigneeRule task).2 ++ (vagueRule task).2
  let final_confidence := max 0 (min 1 (llm_confidence - penalties))
  { llm_confidence := llm_confidence
    rule_penalties := penalties
    final_confidence := final_confidence
    adjustments := adjustments
    needs_review := decide (final_confidence < 7/10) }

/-- The clamp used at line 152 and named by the spec:
`clamp(x, 0.0, 1.0) = max(0.0, min(1.0, x))`. -/
def clamp01 (x : ℚ) : ℚ := max 0 (min 1 x)

/-- Record `task_with_metadata` (lines 189-206): the input task merged with its
confidence metrics and the routing metadata set in the chosen branch.
The `routed_at` wall-clock timestamp is informational only and not modelled. -/
structure RoutedTask where
  task : RawTask
  confidence_metrics : ConfidenceMetrics
  review_status : String
  queue : String
deriving DecidableEq, Repr

/-- State of a `TaskReviewQueue` instance (lines 166-174): the two thresholds and
the three lane lists. -/
structure TaskReviewQueue where
  auto_approve_threshold : ℚ
  high_priority_threshold : ℚ
  auto_approved : List RoutedTask
  standard_review : List RoutedTask
  high_priority_review : List RoutedTask
deriving DecidableEq, Repr

/-- Model of `TaskReviewQueue.__init__` (lines 166-174): stores the two thresholds as
given and starts with three empty lanes.  The constructor body contains no
validation and no raise; it is a total function of its arguments. -/
def TaskReviewQueue.init (auto_approve_threshold : ℚ := 7/10)
    (high_priority_threshold : ℚ := 1/2) : TaskReviewQueue :=
  { auto_approve_threshold := auto_approve_threshold
    high_priority_threshold := high_priority_threshold
    auto_approved := []
    standard_review := []
    high_priority_review := [] }

/-- Model of `TaskReviewQueue.route_task` (lines 176-208): builds the task-with-metadata
record, appends it to the lane selected by the two `>=` comparisons, and
returns it together with the updated queue state. -/
def TaskReviewQueue.route_task (q : TaskReviewQueue) (task : RawTask)
    (confidence_metrics : ConfidenceMetrics) : RoutedTask × TaskReviewQueue :=
  let final_confidence := confidence_metrics.final_confidence
  if final_confidence ≥ q.auto_approve_threshold then
    let t : RoutedTask := ⟨task, confidence_metrics, "auto_approved", "auto_approved"⟩
    (t, { q with auto_approved := q.auto_approved ++ [t] })
  else if final_confidence ≥ q.high_priority_threshold then
    let t : RoutedTask := ⟨task, confidence_metrics, "needs_review", "standard_review"⟩
    (t, { q with standard_review := q.standard_review ++ [t] })
  else
    let t : RoutedTask := ⟨task, confidence_metrics, "needs_urgent_review", "high_priority_review"⟩
    (t, { q with high_priority_review := q.high_priority_review ++ [t] })

/-- Result dictionary of `get_summary` (lines 212-217). -/
structure QueueSummary where
  total_tasks : Nat
  auto_approved : Nat
  standard_review : Nat
  high_priority_review : Nat
deriving DecidableEq, Repr

/-- Model of `TaskReviewQueue.get_summary` (lines 210-217): a pure read of the three
lane lengths and their sum. -/
def TaskReviewQueue.get_summary (q : TaskReviewQueue) : QueueSummary :=
  { total_tasks := q.auto_approved.length + q.standard_review.length + q.high_priority_review.length
    auto_approved := q.auto_approved.length
    standard_review := q.standard_review.length
    high_priority_review := q.high_priority_review.length }

/-- Model of `TaskReviewQueue.get_review_tasks` (lines 219-221):
`high_priority_review + standard_review`. -/
def TaskReviewQueue.get_review_tasks (q : TaskReviewQueue) : List RoutedTask :=
  q.high_priority_review ++ q.standard_review

/-- A sequence of `route_task` calls threaded through the queue state
(each call supplies a task and its confidence metrics, as at line 259). -/
def routeAll (q : TaskReviewQueue) : List (RawTask × ConfidenceMetrics) → TaskReviewQueue
  | [] => q
  | (task, m) :: rest => routeAll (q.route_task task m).2 rest

/-- The extraction collaborator's batch result as read by `process_email`
(lines 244-254): the `error` flag, the `ambiguities` list and the `tasks`
list are the keys the coordinator consumes. -/
structure ExtractionResult where
  tasks : List RawTask
  overall_confidence : ℚ
  ambiguities : List String
  error : Bool
deriving DecidableEq, Repr

/-- The coordinator's result dictionary (lines 244-270).  `Option` fields
model keys present only in one of the two result shapes. -/
structure ProcessOutput where
  success : Bool
  error : Option String
  processed_tasks : Option (List RoutedTask)
  queue_summary : Option QueueSummary
  auto_approved_tasks : Option (List RoutedTask)
  review_tasks : Option (List RoutedTask)
deriving DecidableEq, Repr

/-- The per-task loop of `process_email` (lines 252-260): for each task,
compute its confidence metrics, route it, and collect the routed tasks in
input order while threading the queue state. -/
def processTasks : TaskReviewQueue → List RawTask → List RoutedTask × TaskReviewQueue
  | q, [] => ([], q)
  | q, task :: rest =>
    let confidence_metrics := calculate_final_confidence task
    let routed := q.route_task task confidence_metrics
    let restResult := processTasks routed.2 rest
    (routed.1 :: restResult.1, restResult.2)

/-- Model of `process_email` (lines 224-270), parameterised by the extraction
collaborator's already-materialised result (the LLM call itself is external
I/O).  On `error: true` it returns the failure dictionary built from
`ambiguities[0]` before the loop; indexing `[0]` on an empty list would raise
in Python, modelled as `none`.  Otherwise it runs the loop on a
default-threshold queue and assembles the success dictionary. -/
def process_email (extraction_result : ExtractionResult) : Option ProcessOutput :=
  let queue := TaskReviewQueue.init
  if extraction_result.error then
    match extraction_result.ambiguities with
    | [] => none
    | msg :: _ =>
      some { success := false
             error := some msg
             processed_tasks := none
             queue_summary := none
             auto_approved_tasks := none
             review_tasks := none }
  else
    let result := processTasks queue extraction_result.tasks
    some { success := true
           error := none
           processed_tasks := some result.1
           queue_summary := some result.2.get_summary
           auto_approved_tasks := some result.2.auto_approved
           review_tasks := some result.2.get_review_tasks }

/-! Helper lemmas shared by the claim theorems. -/

/-- Each penalty rule contributes a nonnegative amount. -/
theorem deadlineRule_fst_nonneg (task : RawTask) : 0 ≤ (deadlineRule task).1 := by
  unfold deadlineRule; split <;> norm_num

theorem assigneeRule_fst_nonneg (task : RawTask) : 0 ≤ (assigneeRule task).1 := by
  unfold assigneeRule; split <;> norm_num

theorem vagueRule_fst_nonneg (task : RawTask) : 0 ≤ (vagueRule task).1 := by
  unfold vagueRule; split <;> norm_num

/-- The accumulated penalty total is nonnegative. -/
theorem rule_penalties_nonneg (task : RawTask) :
    0 ≤ (calculate_final_confidence task).rule_penalties :=
  add_nonneg (add_nonneg (deadlineRule_fst_nonneg task) (assigneeRule_fst_nonneg task))
    (vagueRule_fst_nonneg task)

/-- The routed task returned by `route_task` carries the input task unchanged
(the `{**task, ...}` merge at lines 189-193 keeps every original field). -/
theorem route_task_fst_task (q : TaskReviewQueue) (task : RawTask)
    (m : ConfidenceMetrics) : (q.route_task task m).1.task = task := by
  by_cases h1 : m.final_confidence ≥ q.auto_approve_threshold
  · simp [TaskReviewQueue.route_task, h1]
  · by_cases h2 : m.final_confidence ≥ q.high_priority_threshold <;>
      simp [TaskReviewQueue.route_task, h1, h2]

/-- The routed task returned by `route_task` carries the supplied metrics. -/
theorem route_task_fst_metrics (q : TaskReviewQueue) (task : RawTask)
    (m : ConfidenceMetrics) : (q.route_task task m).1.confidence_metrics = m := by
  by_cases h1 : m.final_confidence ≥ q.auto_approve_threshold
  · simp [TaskReviewQueue.route_task, h1]
  · by_cases h2 : m.final_confidence ≥ q.high_priority_threshold <;>
      simp [TaskReviewQueue.route_task, h1, h2]

/-- A concrete task used to instantiate universally quantified theorems:
missing deadline, sentinel assignee, clear description (spec's end-to-end
scenario 1). -/
def sampleTask : RawTask :=
  ⟨some "finalize report", some "unspecified", none, some "high", some (95/100), none⟩

/-- A concrete well-formed task with every field present and no rule firing. -/
def completeTask : RawTask :=
  ⟨some "Complete the quarterly report", some "John Smith", some "2024-03-15",
    some "high", some (1/2), none⟩

/-- Concrete confidence metrics with a chosen final confidence, as handed to
`route_task`. -/
def sampleMetrics (c : ℚ) : ConfidenceMetrics :=
  { llm_confidence := c
    rule_penalties := 0
    final_confidence := c
    adjustments := []
    needs_review := decide (c < 7/10) }

/-- C1: for every input task record, regardless of the sign or magnitude of
its base `confidence_score` and of which penalties fire, the
`final_confidence` returned by `calculate_final_confidence` satisfies
`0.0 <= final_confidence <= 1.0` and equals
`clamp(base_confidence - penalty_total, 0.0, 1.0)`. -/
theorem final_confidence_clamped (task : RawTask) :
    0 ≤ (calculate_final_confidence task).final_confidence ∧
    (calculate_final_confidence task).final_confidence ≤ 1 ∧
    (calculate_final_confidence task).final_confidence =
      clamp01 (task.confidence_score.getD 0 -
        (calculate_final_confidence task).rule_penalties) :=
  ⟨le_max_left _ _, max_le zero_le_one (min_le_left _ _), rfl⟩

/-- C2: band comparisons in `route_task` are inclusive on the lower bound:
`final_confidence >= auto_approve_threshold` yields lane `auto_approved` with
status `auto_approved`; otherwise `final_confidence >=
high_priority_threshold` yields lane `standard_review` with status
`needs_review`; otherwise lane `high_priority_review` with status
`needs_urgent_review`.  With default thresholds, a final confidence of
exactly 0.7 routes to `auto_approved` and exactly 0.5 to `standard_review`. -/
theorem route_task_inclusive_bands (q : TaskReviewQueue) (task : RawTask)
    (m : ConfidenceMetrics) :
    (m.final_confidence ≥ q.auto_approve_threshold →
      (q.route_task task m).1.queue = "auto_approved" ∧
      (q.route_task task m).1.review_status = "auto_approved") ∧
    (¬ m.final_confidence ≥ q.auto_approve_threshold →
      m.final_confidence ≥ q.high_priority_threshold →
      (q.route_task task m).1.queue = "standard_review" ∧
      (q.route_task task m).1.review_status = "needs_review") ∧
    (¬ m.final_confidence ≥ q.auto_approve_threshold →
      ¬ m.final_confidence ≥ q.high_priority_threshold →
      (q.route_task task m).1.queue = "high_priority_review" ∧
      (q.route_task task m).1.review_status = "needs_urgent_review") ∧
    ((TaskReviewQueue.init).route_task task (sampleMetrics (7/10))).1.queue =
      "auto_approved" ∧
    ((TaskReviewQueue.init).route_task task (sampleMetrics (1/2))).1.queue =
      "standard_review" := by
  refine ⟨fun h1 => ?_, fun h1 h2 => ?_, fun h1 h2 => ?_, ?_, ?_⟩
  · simp [TaskReviewQueue.route_task, h1]
  · simp [TaskReviewQueue.route_task, h1, h2]
  · simp [TaskReviewQueue.route_task, h1, h2]
  · norm_num [TaskReviewQueue.route_task, TaskReviewQueue.init, sampleMetrics]
  · norm_num [TaskReviewQueue.route_task, TaskReviewQueue.init, sampleMetrics]

/-- Witness for C2: at a concrete queue, task and metrics with final
confidence 1, the first band applies. -/
theorem route_task_inclusive_bands_witness :
    ((TaskReviewQueue.init).route_task sampleTask (sampleMetrics 1)).1.queue =
      "auto_approved" :=
  ((route_task_inclusive_bands TaskReviewQueue.init sampleTask
    (sampleMetrics 1)).1 (by norm_num [sampleMetrics, TaskReviewQueue.init])).1

/-- C3 counterexample: constructing a `TaskReviewQueue` with
`auto_approve_threshold = 3/2` (outside [0,1]) and `high_priority_threshold
= 2 > 3/2` (inverted ordering) does not fail: the constructor returns a
queue storing exactly those values, and a later `route_task` call on it
also proceeds normally.  This refutes the claim that such construction
raises a fatal configuration error at construction time. -/
theorem init_accepts_invalid_thresholds :
    (TaskReviewQueue.init (3/2) 2).auto_approve_threshold = 3/2 ∧
    (TaskReviewQueue.init (3/2) 2).high_priority_threshold = 2 ∧
    ((TaskReviewQueue.init (3/2) 2).route_task sampleTask
      (sampleMetrics 1)).1.queue = "high_priority_review" := by
  refine ⟨rfl, rfl, ?_⟩
  norm_num [TaskReviewQueue.route_task, TaskReviewQueue.init, sampleMetrics]

/-- C3 amended: `TaskReviewQueue.__init__` performs no validation at all:
any threshold values, including values outside [0,1] or with
`high_priority_threshold > auto_approve_threshold`, are stored verbatim and
construction always succeeds with three empty lanes; the thresholds only
influence behavior later, at routing time. -/
theorem init_stores_thresholds_unvalidated (a h : ℚ) :
    (TaskReviewQueue.init a h).auto_approve_threshold = a ∧
    (TaskReviewQueue.init a h).high_priority_threshold = h ∧
    (TaskReviewQueue.init a h).auto_approved = [] ∧
    (TaskReviewQueue.init a h).standard_review = [] ∧
    (TaskReviewQueue.init a h).high_priority_review = [] :=
  ⟨rfl, rfl, rfl, rfl, rfl⟩

/-- Each routed task in the loop's output carries its input task, so the
output list projects back to the input list (one output per input, in input
order). -/
theorem processTasks_map_task (ts : List RawTask) :
    ∀ q : TaskReviewQueue, ((processTasks q ts).1).map RoutedTask.task = ts := by
  induction ts with
  | nil => intro q; rfl
  | cons t rest ih =>
    intro q
    simp [processTasks, route_task_fst_task, ih]

/-- An extraction failure as produced by `_create_error_response`
(lines 107-115): no tasks, the error message as the sole ambiguity, and the
`error` flag set. -/
def failedExtraction : ExtractionResult :=
  ⟨[], 0, ["Invalid JSON response from LLM"], true⟩

/-- C4: `process_email` is all-or-nothing.  If the extraction result carries
`error = true`, it returns `success = false` carrying the collaborator's
error message (`ambiguities[0]`), with no `processed_tasks` and none of the
calculator's or router's outputs; if extraction succeeds, it returns
`success = true` and every input task produces exactly one `RoutedTask`,
with `processed_tasks` preserving the input order. -/
theorem process_email_all_or_nothing (er : ExtractionResult) :
    (∀ msg rest, er.error = true → er.ambiguities = msg :: rest →
      process_email er = some
        { success := false, error := some msg, processed_tasks := none,
          queue_summary := none, auto_approved_tasks := none,
          review_tasks := none }) ∧
    (er.error = false →
      process_email er = some
        { success := true, error := none,
          processed_tasks := some (processTasks TaskReviewQueue.init er.tasks).1,
          queue_summary :=
            some (processTasks TaskReviewQueue.init er.tasks).2.get_summary,
          auto_approved_tasks :=
            some (processTasks TaskReviewQueue.init er.tasks).2.auto_approved,
          review_tasks :=
            some (processTasks TaskReviewQueue.init er.tasks).2.get_review_tasks } ∧
      ((processTasks TaskReviewQueue.init er.tasks).1).map RoutedTask.task =
        er.tasks) := by
  constructor
  · intro msg rest herr hamb
    simp [process_email, herr, hamb]
  · intro herr
    exact ⟨by simp [process_email, herr], processTasks_map_task er.tasks _⟩

/-- Witness for C4: a concrete failed extraction yields the failure shape
with the collaborator's message and no processed tasks. -/
theorem process_email_all_or_nothing_witness :
    process_email failedExtraction = some
      { success := false, error := some "Invalid JSON response from LLM",
        processed_tasks := none, queue_summary := none,
        auto_approved_tasks := none, review_tasks := none } :=
  (process_email_all_or_nothing failedExtraction).1
    "Invalid JSON response from LLM" [] rfl rfl

/-- C5: for every task record whose deadline is absent/null, whose assignee
equals the exact case-sensitive string "unspecified", and whose lower-cased
description contains no hedge word, `calculate_final_confidence` returns
`penalty_total = 0.35` and exactly two adjustment entries, the deadline
penalty entry before the assignee penalty entry. -/
theorem penalty_additivity_deadline_assignee (task : RawTask)
    (hd : task.deadline = none)
    (ha : task.assignee = some "unspecified")
    (hv : hasVagueLanguage task = false) :
    (calculate_final_confidence task).rule_penalties = 35/100 ∧
    (calculate_final_confidence task).adjustments =
      ["No deadline specified (-0.15)", "Assignee not specified (-0.20)"] := by
  constructor
  · norm_num [calculate_final_confidence, deadlineRule, assigneeRule, vagueRule,
      isFalsyOptStr, hd, ha, hv]
  · simp [calculate_final_confidence, deadlineRule, assigneeRule, vagueRule,
      isFalsyOptStr, hd, ha, hv]

/-- Witness for C5: the spec's end-to-end scenario 1 task. -/
theorem penalty_additivity_deadline_assignee_witness :
    (calculate_final_confidence sampleTask).rule_penalties = 35/100 ∧
    (calculate_final_confidence sampleTask).adjustments =
      ["No deadline specified (-0.15)", "Assignee not specified (-0.20)"] :=
  penalty_additivity_deadline_assignee sampleTask rfl rfl (by decide)

/-- C8: for every task with base confidence `c` in [0,1] for which no
penalty rule fires (deadline present and non-empty, assignee not the
sentinel "unspecified", no hedge word in the description),
`calculate_final_confidence` returns `final_confidence = c`: the pipeline is
the identity on the confidence value when no rule triggers. -/
theorem no_penalty_identity (task : RawTask) (c : ℚ)
    (hc : task.confidence_score = some c) (h0 : 0 ≤ c) (h1 : c ≤ 1)
    (hd : isFalsyOptStr task.deadline = false)
    (ha : task.assignee ≠ some "unspecified")
    (hv : hasVagueLanguage task = false) :
    (calculate_final_confidence task).final_confidence = c := by
  simp only [calculate_final_confidence, deadlineRule, assigneeRule, vagueRule,
    hc, hd, ha, hv, Option.getD_some, Bool.false_eq_true, if_false, if_neg ha]
  rw [show (0:ℚ) + 0 + 0 = 0 by norm_num, sub_zero, min_eq_right h1,
    max_eq_right h0]

/-- Witness for C8: a complete task with confidence 0.5 passes through
unchanged. -/
theorem no_penalty_identity_witness :
    (calculate_final_confidence completeTask).final_confidence = 1/2 :=
  no_penalty_identity completeTask (1/2) rfl (by norm_num) (by norm_num)
    (by decide) (by decide) (by decide)

/-- A task record with no fields at all, as used to instantiate C9. -/
def emptyTask : RawTask := ⟨none, none, none, none, none, none⟩

/-- C9: if an input task record lacks the `confidence_score` field entirely,
`calculate_final_confidence` treats the base confidence as 0.0, so
`final_confidence` is 0.0, and `route_task` with default thresholds places
that task in the `high_priority_review` lane with status
`needs_urgent_review`. -/
theorem missing_confidence_score_routes_urgent (task : RawTask)
    (q : TaskReviewQueue)
    (hc : task.confidence_score = none)
    (hauto : q.auto_approve_threshold = 7/10)
    (hhigh : q.high_priority_threshold = 1/2) :
    (calculate_final_confidence task).final_confidence = 0 ∧
    (q.route_task task (calculate_final_confidence task)).1.queue =
      "high_priority_review" ∧
    (q.route_task task (calculate_final_confidence task)).1.review_status =
      "needs_urgent_review" ∧
    (q.route_task task (calculate_final_confidence task)).2.high_priority_review =
      q.high_priority_review ++
        [(q.route_task task (calculate_final_confidence task)).1] := by
  have hp : (0:ℚ) ≤ (deadlineRule task).1 + (assigneeRule task).1 + (vagueRule task).1 :=
    add_nonneg (add_nonneg (deadlineRule_fst_nonneg task)
      (assigneeRule_fst_nonneg task)) (vagueRule_fst_nonneg task)
  have hfin : (calculate_final_confidence task).final_confidence = 0 := by
    show max 0 (min 1 (task.confidence_score.getD 0 -
      ((deadlineRule task).1 + (assigneeRule task).1 + (vagueRule task).1))) = 0
    rw [hc, Option.getD_none, zero_sub, min_eq_right (by linarith),
      max_eq_left (by linarith)]
  have h1 : ¬ (calculate_final_confidence task).final_confidence ≥
      q.auto_approve_threshold := by
    rw [hfin, hauto]; norm_num
  have h2 : ¬ (calculate_final_confidence task).final_confidence ≥
      q.high_priority_threshold := by
    rw [hfin, hhigh]; norm_num
  refine ⟨hfin, ?_, ?_, ?_⟩ <;> simp [TaskReviewQueue.route_task, h1, h2]

/-- Witness for C9: the empty task record on a default-threshold queue. -/
theorem missing_confidence_score_routes_urgent_witness :
    (calculate_final_confidence emptyTask).final_confidence = 0 ∧
    ((TaskReviewQueue.init).route_task emptyTask
      (calculate_final_confidence emptyTask)).1.queue = "high_priority_review" ∧
    ((TaskReviewQueue.init).route_task emptyTask
      (calculate_final_confidence emptyTask)).1.review_status =
      "needs_urgent_review" ∧
    ((TaskReviewQueue.init).route_task emptyTask
      (calculate_final_confidence emptyTask)).2.high_priority_review =
      (TaskReviewQueue.init).high_priority_review ++
        [((TaskReviewQueue.init).route_task emptyTask
          (calculate_final_confidence emptyTask)).1] :=
  missing_confidence_score_routes_urgent emptyTask TaskReviewQueue.init rfl rfl rfl

/-- A task whose deadline key holds the empty string, as used to
instantiate C10. -/
def emptyDeadlineTask : RawTask := ⟨none, none, some "", none, none, none⟩

/-- C10: the missing-deadline penalty fires for every falsy deadline value,
including the empty string: for any task whose deadline is `""`,
`calculate_final_confidence` adds the 0.15 penalty (on top of whatever the
other two rules contribute) and records the "No deadline specified (-0.15)"
adjustment first. -/
theorem empty_string_deadline_penalized (task : RawTask)
    (hd : task.deadline = some "") :
    (calculate_final_confidence task).adjustments.head? =
      some "No deadline specified (-0.15)" ∧
    (calculate_final_confidence task).rule_penalties =
      15/100 + (assigneeRule task).1 + (vagueRule task).1 := by
  have hfalsy : isFalsyOptStr task.deadline = true := by rw [hd]; rfl
  constructor
  · simp [calculate_final_confidence, deadlineRule, hfalsy]
  · simp [calculate_final_confidence, deadlineRule, hfalsy]

/-- Witness for C10: a concrete task whose deadline is the empty string. -/
theorem empty_string_deadline_penalized_witness :
    (calculate_final_confidence emptyDeadlineTask).adjustments.head? =
      some "No deadline specified (-0.15)" ∧
    (calculate_final_confidence emptyDeadlineTask).rule_penalties =
      15/100 + (assigneeRule emptyDeadlineTask).1 +
        (vagueRule emptyDeadlineTask).1 :=
  empty_string_deadline_penalized emptyDeadlineTask rfl

/-- Every entry of a lane carries that lane's `queue` tag. -/
def lanesTagged (q : TaskReviewQueue) : Prop :=
  (∀ rt ∈ q.auto_approved, rt.queue = "auto_approved") ∧
  (∀ rt ∈ q.standard_review, rt.queue = "standard_review") ∧
  (∀ rt ∈ q.high_priority_review, rt.queue = "high_priority_review")

theorem lanesTagged_init (a h : ℚ) : lanesTagged (TaskReviewQueue.init a h) := by
  refine ⟨?_, ?_, ?_⟩ <;> intro rt hrt <;> simp [TaskReviewQueue.init] at hrt

theorem lanesTagged_route_task (q : TaskReviewQueue) (task : RawTask)
    (m : ConfidenceMetrics) (hq : lanesTagged q) :
    lanesTagged (q.route_task task m).2 := by
  obtain ⟨ha, hs, hh⟩ := hq
  by_cases c1 : m.final_confidence ≥ q.auto_approve_threshold
  · refine ⟨?_, ?_, ?_⟩ <;> intro rt hrt <;>
      simp [TaskReviewQueue.route_task, c1] at hrt
    · rcases hrt with hrt | hrt
      · exact ha rt hrt
      · rw [hrt]
    · exact hs rt hrt
    · exact hh rt hrt
  · by_cases c2 : m.final_confidence ≥ q.high_priority_threshold
    · refine ⟨?_, ?_, ?_⟩ <;> intro rt hrt <;>
        simp [TaskReviewQueue.route_task, c1, c2] at hrt
      · exact ha rt hrt
      · rcases hrt with hrt | hrt
        · exact hs rt hrt
        · rw [hrt]
      · exact hh rt hrt
    · refine ⟨?_, ?_, ?_⟩ <;> intro rt hrt <;>
        simp [TaskReviewQueue.route_task, c1, c2] at hrt
      · exact ha rt hrt
      · exact hs rt hrt
      · rcases hrt with hrt | hrt
        · exact hh rt hrt
        · rw [hrt]

theorem lanesTagged_routeAll (inputs : List (RawTask × ConfidenceMetrics)) :
    ∀ q : TaskReviewQueue, lanesTagged q → lanesTagged (routeAll q inputs) := by
  induction inputs with
  | nil => intro q hq; exact hq
  | cons p rest ih =>
    intro q hq
    obtain ⟨t, m⟩ := p
    exact ih _ (lanesTagged_route_task q t m hq)

/-- One `route_task` call only appends to lanes, so existing entries keep
their positions. -/
theorem route_task_lane_growth (q : TaskReviewQueue) (task : RawTask)
    (m : ConfidenceMetrics) :
    ∃ s₁ s₂ s₃,
      (q.route_task task m).2.auto_approved = q.auto_approved ++ s₁ ∧
      (q.route_task task m).2.standard_review = q.standard_review ++ s₂ ∧
      (q.route_task task m).2.high_priority_review =
        q.high_priority_review ++ s₃ := by
  by_cases c1 : m.final_confidence ≥ q.auto_approve_threshold
  · exact ⟨[⟨task, m, "auto_approved", "auto_approved"⟩], [], [],
      by simp [TaskReviewQueue.route_task, c1]⟩
  · by_cases c2 : m.final_confidence ≥ q.high_priority_threshold
    · exact ⟨[], [⟨task, m, "needs_review", "standard_review"⟩], [],
        by simp [TaskReviewQueue.route_task, c1, c2]⟩
    · exact ⟨[], [], [⟨task, m, "needs_urgent_review", "high_priority_review"⟩],
        by simp [TaskReviewQueue.route_task, c1, c2]⟩

/-- A whole sequence of `route_task` calls only appends to each lane. -/
theorem routeAll_lane_growth (inputs : List (RawTask × ConfidenceMetrics)) :
    ∀ q : TaskReviewQueue, ∃ s₁ s₂ s₃,
      (routeAll q inputs).auto_approved = q.auto_approved ++ s₁ ∧
      (routeAll q inputs).standard_review = q.standard_review ++ s₂ ∧
      (routeAll q inputs).high_priority_review =
        q.high_priority_review ++ s₃ := by
  induction inputs with
  | nil => exact fun q => ⟨[], [], [], by simp [routeAll]⟩
  | cons p rest ih =>
    intro q
    obtain ⟨t, m⟩ := p
    obtain ⟨r₁, r₂, r₃, e₁, e₂, e₃⟩ := route_task_lane_growth q t m
    obtain ⟨s₁, s₂, s₃, f₁, f₂, f₃⟩ := ih (q.route_task t m).2
    refine ⟨r₁ ++ s₁, r₂ ++ s₂, r₃ ++ s₃, ?_, ?_, ?_⟩ <;>
      simp [routeAll, f₁, f₂, f₃, e₁, e₂, e₃]

/-- C6: after any sequence of `route_task` calls starting from a freshly
constructed queue, `get_review_tasks` returns exactly the
`high_priority_review` lane followed by the `standard_review` lane, it never
contains any task routed to the `auto_approved` lane, and every lane only
grows by appending (so each lane is in insertion order). -/
theorem get_review_tasks_excludes_auto (a h : ℚ)
    (inputs : List (RawTask × ConfidenceMetrics)) :
    ((routeAll (TaskReviewQueue.init a h) inputs).get_review_tasks =
      (routeAll (TaskReviewQueue.init a h) inputs).high_priority_review ++
      (routeAll (TaskReviewQueue.init a h) inputs).standard_review) ∧
    (∀ rt ∈ (routeAll (TaskReviewQueue.init a h) inputs).auto_approved,
      rt ∉ (routeAll (TaskReviewQueue.init a h) inputs).get_review_tasks) ∧
    (∀ q : TaskReviewQueue, ∃ s₁ s₂ s₃,
      (routeAll q inputs).auto_approved = q.auto_approved ++ s₁ ∧
      (routeAll q inputs).standard_review = q.standard_review ++ s₂ ∧
      (routeAll q inputs).high_priority_review =
        q.high_priority_review ++ s₃) := by
  refine ⟨rfl, ?_, routeAll_lane_growth inputs⟩
  intro rt hmem hrev
  obtain ⟨ta, ts, th⟩ := lanesTagged_routeAll inputs _ (lanesTagged_init a h)
  have htag := ta rt hmem
  rw [TaskReviewQueue.get_review_tasks, List.mem_append] at hrev
  rcases hrev with hrev | hrev
  · have := th rt hrev
    rw [htag] at this
    exact absurd this (by decide)
  · have := ts rt hrev
    rw [htag] at this
    exact absurd this (by decide)

/-- Witness for C6: a task auto-approved on a default-threshold queue is
absent from the review worklist. -/
theorem get_review_tasks_excludes_auto_witness :
    (⟨sampleTask, sampleMetrics 1, "auto_approved", "auto_approved"⟩ : RoutedTask) ∉
      (routeAll (TaskReviewQueue.init (7/10) (1/2))
        [(sampleTask, sampleMetrics 1)]).get_review_tasks :=
  (get_review_tasks_excludes_auto (7/10) (1/2)
    [(sampleTask, sampleMetrics 1)]).2.1 _ (by with_unfolding_all decide)

/-- C7: after any sequence of `route_task` calls, `get_summary` is a pure
read whose `total_tasks` equals the sum of the three per-lane counts and
equals the number of `route_task` calls, and reading it twice without an
intervening call gives identical results. -/
theorem get_summary_total_consistent (a h : ℚ)
    (inputs : List (RawTask × ConfidenceMetrics)) :
    ((routeAll (TaskReviewQueue.init a h) inputs).get_summary.total_tasks =
      (routeAll (TaskReviewQueue.init a h) inputs).get_summary.auto_approved +
      (routeAll (TaskReviewQueue.init a h) inputs).get_summary.standard_review +
      (routeAll (TaskReviewQueue.init a h) inputs).get_summary.high_priority_review) ∧
    ((routeAll (TaskReviewQueue.init a h) inputs).get_summary.total_tasks =
      inputs.length) ∧
    ((routeAll (TaskReviewQueue.init a h) inputs).get_summary =
      (routeAll (TaskReviewQueue.init a h) inputs).get_summary) := by
  refine ⟨rfl, ?_, rfl⟩
  have key : ∀ (l : List (RawTask × ConfidenceMetrics)) (q : TaskReviewQueue),
      (routeAll q l).auto_approved.length + (routeAll q l).standard_review.length +
        (routeAll q l).high_priority_review.length =
      q.auto_approved.length + q.standard_review.length +
        q.high_priority_review.length + l.length := by
    intro l
    induction l with
    | nil => intro q; simp [routeAll]
    | cons p rest ih =>
      intro q
      obtain ⟨t, m⟩ := p
      rw [routeAll, ih]
      by_cases c1 : m.final_confidence ≥ q.auto_approve_threshold
      · simp [TaskReviewQueue.route_task, c1]; omega
      · by_cases c2 : m.final_confidence ≥ q.high_priority_threshold <;>
          · simp [TaskReviewQueue.route_task, c1, c2]; omega
  have := key inputs (TaskReviewQueue.init a h)
  simp [TaskReviewQueue.init] at this
  exact this

end TaskExtractor
